import Mathlib

/-!
Verification development for the polymarket-mcp demo chat backend
(`demo/chatbot-ui/backend/src/index.ts`), a bridge between an LLM client
and an MCP client: connection setup with an OAuth pause, tool-catalog
refresh, a bounded session-expiry retry loop around tool invocation, a
conversation orchestration loop, and word-by-word output streaming.

The backend is embedded shallowly: module-level mutable globals
(`mcpClient`, `mcpTransport`, `oauthProvider`, `availableTools`) become an
explicit `GlobalState` record threaded through every operation; each MCP
client object is identified by a generation number (a fresh `Client`
object gets a fresh generation).  The external collaborators (the MCP
server reached through the transport, and the Anthropic model API) are an
`Env` record of fallible functions; `Except` models `throw`/`catch`.
The legacy single-tool backend variant kept in the repository is embedded
separately (`toolTurnStepLegacy`).
-/

namespace PolymarketBackend

/-- Err models a thrown JavaScript `Error`: the retry logic only ever
inspects `error?.message || String(error)`, so the message is the whole
observable content. -/
structure Err where
  msg : String
deriving DecidableEq, Repr

/-- Role of a chat message, per the backend `Message` interface
(`role: "user" | "assistant"`). -/
inductive Role where
  | user
  | assistant
deriving DecidableEq, Repr

/-- Message is the backend chat-history entry:
`interface Message { role: "user" | "assistant"; content: string }`. -/
structure Message where
  role : Role
  content : String
deriving DecidableEq, Repr

/-- ContentBlock is an Anthropic response content block; the backend only
discriminates `"text"` and `"tool_use"` blocks.  A tool-use block carries
`id`, `name` and `input` (the JSON input is kept opaque as a string). -/
inductive ContentBlock where
  | text (t : String)
  | toolUse (id : String) (name : String) (input : String)
deriving DecidableEq, Repr

/-- ToolUseBlock mirrors `Anthropic.Messages.ToolUseBlock` as used by the
backend: the `id`, `name`, `input` fields of a `tool_use` content block. -/
structure ToolUseBlock where
  id : String
  name : String
  input : String
deriving DecidableEq, Repr

/-- ToolResultEntry is one element of the aggregated tool-result message:
`{ type: "tool_result", tool_use_id: toolUse.id, content: ... }`. -/
structure ToolResultEntry where
  tool_use_id : String
  content : String
deriving DecidableEq, Repr

/-- MessageContent is the content of a message sent to the model: a plain
string (history entries and the new user message), the assistant response
blocks (`content: response.content`), or an aggregated tool-result list
(`content: toolResults`). -/
inductive MessageContent where
  | ofString (s : String)
  | blocks (bs : List ContentBlock)
  | results (rs : List ToolResultEntry)
deriving DecidableEq, Repr

/-- AMessage is an entry of the `messages` array passed to
`anthropic.messages.create`. -/
structure AMessage where
  role : Role
  content : MessageContent
deriving DecidableEq, Repr

/-- ModelResponse is the part of an Anthropic response the backend reads:
the content blocks and `stop_reason`. -/
structure ModelResponse where
  content : List ContentBlock
  stop_reason : String
deriving DecidableEq, Repr

/-- MCPTool is a tool descriptor returned by `mcpClient.listTools()`:
`name`, optional `description`, and `inputSchema` (kept opaque). -/
structure MCPTool where
  name : String
  description : Option String
  inputSchema : String
deriving DecidableEq, Repr

/-- AnthropicTool is the converted tool descriptor stored in the
`availableTools` global. -/
structure AnthropicTool where
  name : String
  description : String
  input_schema : String
deriving DecidableEq, Repr

/-- CallToolResult models the result of `mcpClient.callTool`: the backend
only uses `result.content`, which it serializes with `JSON.stringify`;
the serialized content is kept opaque as a string. -/
structure CallToolResult where
  content : String
deriving DecidableEq, Repr

/-- ConnErr is a failure of `mcpClient.connect`: either the SDK
`UnauthorizedError` (OAuth authorization required) or any other error. -/
inductive ConnErr where
  | unauthorized
  | other (e : Err)
deriving DecidableEq, Repr

/-- LogEvent records the console messages of the best-effort prompt and
resource listings — the listing responses are only logged, never stored. -/
inductive LogEvent where
  | foundPrompts (n : Nat)
  | noPrompts
  | foundResources (n : Nat)
  | noResources
deriving DecidableEq, Repr

/-- GlobalState packages the backend module-level mutable globals:
`mcpClient` / `mcpTransport` (each `null` or a constructed object,
identified here by a generation number), `oauthProvider` (`null` or a
provider whose pending-authorization flag is tracked), and
`availableTools`. -/
structure GlobalState where
  mcpClient : Option Nat
  mcpTransport : Option Nat
  oauthPending : Option Bool
  availableTools : List AnthropicTool
deriving DecidableEq, Repr

/-- Env is the behavior of the external collaborators, indexed by the
client generation where an operation goes through a particular `Client`
object: MCP connect / listings / tool invocation, the OAuth code
exchange, and the Anthropic model call. -/
structure Env where
  connect : Nat → Except ConnErr Unit
  listTools : Nat → Except Err (List MCPTool)
  listPrompts : Nat → Except Err Nat
  listResources : Nat → Except Err Nat
  callTool : Nat → String → String → Except Err CallToolResult
  finishAuth : String → Except Err Unit
  model : List AMessage → List AnthropicTool → Except Err ModelResponse

/-- initialState is the module state at process start: all globals
`null`, no tools. -/
def initialState : GlobalState :=
  { mcpClient := none, mcpTransport := none, oauthPending := none,
    availableTools := [] }

/-- nextGen gives the generation of a freshly constructed `Client`
object, distinct from the current one. -/
def nextGen (st : GlobalState) : Nat :=
  match st.mcpClient with
  | some g => g + 1
  | none => 0

/-- convertTool is the MCP-to-Anthropic tool conversion:
`{ name: tool.name, description: tool.description || "", input_schema:
tool.inputSchema }`. -/
def convertTool (t : MCPTool) : AnthropicTool :=
  { name := t.name, description := t.description.getD (""),
    input_schema := t.inputSchema }

/-- charsIncludes decides whether `pat` occurs contiguously inside a
character list, matching JavaScript `String.prototype.includes`. -/
def charsIncludes (pat : List Char) : List Char → Bool
  | [] => pat.isPrefixOf []
  | c :: rest => pat.isPrefixOf (c :: rest) || charsIncludes pat rest

/-- stringIncludes models `s.includes(pat)` on JavaScript strings. -/
def stringIncludes (s pat : String) : Bool :=
  charsIncludes pat.data s.data

/-- sessionExpiredMsg is the session-expiry test of the retry loop:
`errorMessage.includes("Session not found or expired")`. -/
def sessionExpiredMsg (m : String) : Bool :=
  stringIncludes m ("Session not found or expired")

/-- initializeTools embeds `initializeTools()`: throw if `mcpClient` is
`null`; list tools (a failure propagates); replace `availableTools`
wholesale with the converted list; then best-effort `listPrompts` and
`listResources`, each in its own `try`/`catch` whose failure is only
logged.  Returns the outcome, the updated globals, and the log. -/
def initializeTools (env : Env) (st : GlobalState) :
    Except Err Unit × GlobalState × List LogEvent :=
  match st.mcpClient with
  | none => (.error { msg := "MCP client not initialized" }, st, [])
  | some g =>
    match env.listTools g with
    | .error e => (.error e, st, [])
    | .ok tools =>
      let st₁ := { st with availableTools := tools.map convertTool }
      let plog :=
        match env.listPrompts g with
        | .ok n => [LogEvent.foundPrompts n]
        | .error _ => [LogEvent.noPrompts]
      let rlog :=
        match env.listResources g with
        | .ok n => [LogEvent.foundResources n]
        | .error _ => [LogEvent.noResources]
      (.ok (), st₁, plog ++ rlog)

/-- initializeMCPClient embeds `initializeMCPClient()`: construct the
OAuth provider, transport and client (the client global is assigned
before `connect` runs), then connect.  An `UnauthorizedError` is caught
and the function returns normally with the pending-authorization flag
set (modelled from the spec: `SimpleOAuthProvider`, imported from
`oauth-provider.ts`, is not part of the sources; per the spec the
provider marks authorization as pending when the provider demands the
interactive step).  Any other connect or listing failure is rethrown.
On success the tool catalog is populated and prompts/resources are
listed best-effort, exactly as in `initializeTools`. -/
def initializeMCPClient (env : Env) (st : GlobalState) :
    Except Err Unit × GlobalState × List LogEvent :=
  let g := nextGen st
  let st₁ := { st with oauthPending := some false,
                       mcpTransport := some g, mcpClient := some g }
  match env.connect g with
  | .error .unauthorized =>
    (.ok (), { st₁ with oauthPending := some true }, [])
  | .error (.other e) => (.error e, st₁, [])
  | .ok _ =>
    match env.listTools g with
    | .error e => (.error e, st₁, [])
    | .ok tools =>
      let st₂ := { st₁ with availableTools := tools.map convertTool }
      let plog :=
        match env.listPrompts g with
        | .ok n => [LogEvent.foundPrompts n]
        | .error _ => [LogEvent.noPrompts]
      let rlog :=
        match env.listResources g with
        | .ok n => [LogEvent.foundResources n]
        | .error _ => [LogEvent.noResources]
      (.ok (), st₂, plog ++ rlog)

/-- startup embeds `startup()`: run `initializeMCPClient`; a thrown error
is caught and the process exits (`process.exit(1)`), modelled as
`Except.error`; otherwise the process keeps running with the resulting
globals, serving the HTTP and WebSocket endpoints. -/
def startup (env : Env) : Except Err GlobalState :=
  match initializeMCPClient env initialState with
  | (.ok _, st, _) => .ok st
  | (.error e, _, _) => .error e

/-- reconnectAfterAuth embeds `reconnectAfterAuth(authCode)`: throw if
the transport or OAuth provider is `null`; exchange the authorization
code (`mcpTransport.finishAuth`); clear the pending-authorization flag
(`oauthProvider.clearPendingAuth()`, modelled from the spec since
`oauth-provider.ts` is not part of the sources); then refresh the
catalog via `initializeTools`. -/
def reconnectAfterAuth (env : Env) (authCode : String) (st : GlobalState) :
    Except Err Unit × GlobalState × List LogEvent :=
  match st.mcpTransport, st.oauthPending with
  | none, _ => (.error { msg := "OAuth provider not initialized" }, st, [])
  | some _, none => (.error { msg := "OAuth provider not initialized" }, st, [])
  | some _, some _ =>
    match env.finishAuth authCode with
    | .error e => (.error e, st, [])
    | .ok _ =>
      initializeTools env { st with oauthPending := some false }

/-- reconnectMCPSession embeds `reconnectMCPSession()`: close the old
client, throw if the OAuth provider is `null`, construct a fresh
transport and client (a new generation — the globals are reassigned
before `connect` runs, so they are updated even if the connect then
fails), connect, and refresh the catalog via `initializeTools`.  The
state component is returned in every case because the global
reassignments survive a thrown error. -/
def reconnectMCPSession (env : Env) (st : GlobalState) :
    Except Err Unit × GlobalState :=
  match st.oauthPending with
  | none => (.error { msg := "OAuth provider not initialized" }, st)
  | some _ =>
    match env.connect (nextGen st) with
    | .error .unauthorized =>
      (.error { msg := "Unauthorized" },
       { st with mcpTransport := some (nextGen st), mcpClient := some (nextGen st) })
    | .error (.other e) =>
      (.error e,
       { st with mcpTransport := some (nextGen st), mcpClient := some (nextGen st) })
    | .ok _ =>
      match initializeTools env
          { st with mcpTransport := some (nextGen st), mcpClient := some (nextGen st) } with
      | (.ok _, st₂, _) => (.ok (), st₂)
      | (.error e, st₂, _) => (.error e, st₂)

/-- CallErr tags a failure of one tool invocation by the `throw` site it
comes from inside the retry loop: the rethrow in the `catch` branch, a
failure of `reconnectMCPSession` propagating out of the loop, or the
defensive `throw` placed after the `while` loop. -/
inductive CallErr where
  | fromCall (e : Err)
  | fromReconnect (e : Err)
  | exhausted (toolName : String)
deriving DecidableEq, Repr

/-- CallResult is the outcome of running the per-invocation retry loop:
the result or tagged error, the globals afterwards, and how many times
`reconnectMCPSession` was entered. -/
structure CallResult where
  outcome : Except CallErr ToolResultEntry
  st : GlobalState
  reconnects : Nat
deriving Repr

/-- maxRetries is the retry ceiling of the tool-invocation loop
(`const maxRetries = 2`): two total attempts. -/
def maxRetries : Nat := 2

/-- callToolGo embeds the `while (retries < maxRetries)` retry loop of
`processMessageWithClaude`, with `fuel = maxRetries - retries` so the
loop is entered with `fuel = maxRetries`.  One iteration: call the tool
on the current client (`mcpClient!.callTool`); on success return the
tool-result entry correlated by `toolUse.id`; on failure, if the message
contains the session-expiry text and `retries < maxRetries - 1`
(equivalently `fuel > 1`), run `reconnectMCPSession` — whose own failure
propagates — and continue with the incremented counter; otherwise
rethrow.  Exiting the loop normally reaches the defensive
`throw new Error("Failed to call tool ...")`. -/
def callToolGo (env : Env) (tu : ToolUseBlock) :
    Nat → GlobalState → CallResult
  | 0, st => { outcome := .error (.exhausted tu.name), st := st, reconnects := 0 }
  | fuel + 1, st =>
    match st.mcpClient with
    | none =>
      { outcome := .error (.fromCall { msg := "Cannot read properties of null" }),
        st := st, reconnects := 0 }
    | some g =>
      match env.callTool g tu.name tu.input with
      | .ok r =>
        { outcome := .ok { tool_use_id := tu.id, content := r.content },
          st := st, reconnects := 0 }
      | .error e =>
        if sessionExpiredMsg e.msg && decide (0 < fuel) then
          match reconnectMCPSession env st with
          | (.error e₁, st₁) =>
            { outcome := .error (.fromReconnect e₁), st := st₁, reconnects := 1 }
          | (.ok _, st₁) =>
            let res := callToolGo env tu fuel st₁
            { res with reconnects := res.reconnects + 1 }
        else
          { outcome := .error (.fromCall e), st := st, reconnects := 0 }

/-- callErrToErr recovers the plain thrown error from a tagged one, with
the message of the defensive post-loop `throw`. -/
def callErrToErr : CallErr → Err
  | .fromCall e => e
  | .fromReconnect e => e
  | .exhausted name =>
    { msg := ("Failed to call tool ") ++ name ++ (" after 2 attempts") }

/-- resolveAllTools embeds the `Promise.all(toolUseBlocks.map(...))`
aggregation.  The runtime is single-threaded and cooperative; the
embedding dispatches the invocations in request order, threading the
shared globals, and `Promise.all` delivers the results positionally in
request order (completion order never reorders them) or rejects with the
first failure. -/
def resolveAllTools (env : Env) :
    List ToolUseBlock → GlobalState →
    Except CallErr (List ToolResultEntry) × GlobalState
  | [], st => (.ok [], st)
  | b :: bs, st =>
    let res := callToolGo env b maxRetries st
    match res.outcome with
    | .error e => (.error e, res.st)
    | .ok entry =>
      match resolveAllTools env bs res.st with
      | (.error e, st₁) => (.error e, st₁)
      | (.ok entries, st₁) => (.ok (entry :: entries), st₁)

/-- toolUseBlocks embeds
`response.content.filter((block) => block.type === "tool_use")`. -/
def toolUseBlocks : List ContentBlock → List ToolUseBlock
  | [] => []
  | .text _ :: rest => toolUseBlocks rest
  | .toolUse i n inp :: rest => { id := i, name := n, input := inp } :: toolUseBlocks rest

/-- findFirstText embeds
`response.content.find((block) => block.type === "text")`. -/
def findFirstText : List ContentBlock → Option String
  | [] => none
  | .text t :: _ => some t
  | .toolUse _ _ _ :: rest => findFirstText rest

/-- initMessages embeds the construction of the `messages` array: the
spread of the conversation history followed by the new user message. -/
def initMessages (history : List Message) (userMessage : String) :
    List AMessage :=
  history.map (fun m => { role := m.role, content := .ofString m.content })
    ++ [{ role := .user, content := .ofString userMessage }]

/-- toolTurnStep embeds one tool round trip of the orchestration loop
body: push the assistant message carrying the full response content,
resolve every requested tool call through the retry policy, and push the
single aggregated tool-result message (role `user`). -/
def toolTurnStep (env : Env) (messages : List AMessage)
    (response : ModelResponse) (st : GlobalState) :
    Except CallErr (List AMessage) × GlobalState :=
  let blocks := toolUseBlocks response.content
  let messages₁ := messages ++ [{ role := .assistant, content := .blocks response.content }]
  match resolveAllTools env blocks st with
  | (.error e, st₁) => (.error e, st₁)
  | (.ok entries, st₁) =>
    (.ok (messages₁ ++ [{ role := .user, content := .results entries }]), st₁)

/-- RunErr is the outcome of the orchestration body short of the outer
`catch`: a thrown error (any provider or invocation failure), or fuel
exhaustion — an artifact marking the executions in which the
`while (response.stop_reason === "tool_use")` loop would keep iterating
past the modelled bound. -/
inductive RunErr where
  | thrown (e : Err)
  | fuel
deriving DecidableEq, Repr

/-- finalChunks embeds the streaming source: the first `text` block of
the final response, or nothing when there is none. -/
def chunkWords : List String → List String
  | [] => []
  | [w] => [w]
  | w :: ws => (w ++ (" ")) :: chunkWords ws

/-- jsSplit embeds `fullText.split(" ")`: JavaScript split on the
single-space separator keeps empty pieces and yields `[""]` on the empty
string, exactly `List.splitOn` on the character list. -/
def jsSplit (s : String) : List String :=
  (s.data.splitOn ' ').map String.mk

/-- finalChunks is the list of chunks the backend writes to the socket
for a final response: the text split on single spaces, every non-final
chunk re-suffixed with the separating space
(`i === words.length - 1 ? words[i] : words[i] + " "`). -/
def finalChunks (response : ModelResponse) : List String :=
  match findFirstText response.content with
  | some t => chunkWords (jsSplit t)
  | none => []

/-- chatLoop embeds the `while (response.stop_reason === "tool_use")`
loop (the `if (toolUseBlocks.length === 0) break` makes the effective
condition also require a nonempty block list): run one tool round trip,
call the model again on the grown message list with the current
`availableTools` global, and iterate; when the loop condition fails,
fall through to streaming the final response. -/
def chatLoop (env : Env) : Nat → List AMessage → ModelResponse →
    GlobalState → Except RunErr (List String) × GlobalState
  | fuel, messages, response, st =>
    if response.stop_reason = "tool_use" ∧ toolUseBlocks response.content ≠ [] then
      match fuel with
      | 0 => (.error .fuel, st)
      | fuel + 1 =>
        match toolTurnStep env messages response st with
        | (.error e, st₁) => (.error (.thrown (callErrToErr e)), st₁)
        | (.ok messages₁, st₁) =>
          match env.model messages₁ st₁.availableTools with
          | .error e => (.error (.thrown e), st₁)
          | .ok response₁ => chatLoop env fuel messages₁ response₁ st₁
    else
      (.ok (finalChunks response), st)

/-- processRun is the body of `processMessageWithClaude` short of the
outer `try`/`catch`: build the message list, make the first model call,
and run the orchestration loop. -/
def processRun (env : Env) (userMessage : String)
    (conversationHistory : List Message) (st : GlobalState) (fuel : Nat) :
    Except RunErr (List String) × GlobalState :=
  let messages := initMessages conversationHistory userMessage
  match env.model messages st.availableTools with
  | .error e => (.error (.thrown e), st)
  | .ok response => chatLoop env fuel messages response st

/-- processMessageWithClaude embeds the whole handler: on normal
completion the final-response chunks are written followed by the single
`"[END]"` marker; a thrown error reaches the outer `catch`, which writes
one `"Error: ..."` chunk and then the `"[END]"` marker.  The returned
list is the sequence of `ws.send` payloads; fuel exhaustion (an
execution that would keep looping) writes nothing. -/
def processMessageWithClaude (env : Env) (userMessage : String)
    (conversationHistory : List Message) (st : GlobalState) (fuel : Nat) :
    List String × GlobalState :=
  match processRun env userMessage conversationHistory st fuel with
  | (.ok chunks, st₁) => (chunks ++ [("[END]")], st₁)
  | (.error (.thrown e), st₁) => ((("Error: ") ++ e.msg) :: [("[END]")], st₁)
  | (.error .fuel, st₁) => ([], st₁)

/-- wsMessageHandler embeds the WebSocket `message` handler: push the
user message onto the stored per-client history, then process with the
history minus that last element (`history.slice(0, -1)` — a fresh
array).  The assistant response is never appended to the stored history
(the source leaves that as a comment).  Returns the stored history after
the turn together with the processing outcome. -/
def wsMessageHandler (env : Env) (st : GlobalState)
    (stored : List Message) (data : String) (fuel : Nat) :
    List Message × (List String × GlobalState) :=
  let userMessage := data
  let history := stored ++ [{ role := .user, content := userMessage }]
  (history, processMessageWithClaude env userMessage history.dropLast st fuel)

/-- Health is the JSON shape of the `/health` endpoint response. -/
structure Health where
  status : String
  mcpConnected : Bool
  toolsAvailable : Nat
deriving DecidableEq, Repr

/-- healthHandler embeds the `/health` endpoint:
`{ status: "ok", mcpConnected: mcpClient !== null,
   toolsAvailable: availableTools.length }`. -/
def healthHandler (st : GlobalState) : Health :=
  { status := "ok", mcpConnected := st.mcpClient.isSome,
    toolsAvailable := st.availableTools.length }

/-- findFirstToolUse embeds the legacy variant
`response.content.find((block) => block.type === "tool_use")`. -/
def findFirstToolUse : List ContentBlock → Option ToolUseBlock
  | [] => none
  | .text _ :: rest => findFirstToolUse rest
  | .toolUse i n inp :: _ => some { id := i, name := n, input := inp }

/-- toolTurnStepLegacy embeds one tool round trip of the legacy backend
variant kept in the repository (the WebSocket-transport
`processMessageWithClaude`): it resolves only the FIRST `tool_use` block
of the response, with no retry, and pushes a tool-result message holding
the single corresponding entry. -/
def toolTurnStepLegacy (env : Env) (messages : List AMessage)
    (response : ModelResponse) (st : GlobalState) :
    Except Err (List AMessage) × GlobalState :=
  match findFirstToolUse response.content with
  | none => (.ok messages, st)
  | some tu =>
    match st.mcpClient with
    | none =>
      (.error { msg := "Cannot read properties of null" }, st)
    | some g =>
      match env.callTool g tu.name tu.input with
      | .error e => (.error e, st)
      | .ok r =>
        (.ok (messages
          ++ [{ role := .assistant, content := .blocks response.content },
              { role := .user,
                content := .results [{ tool_use_id := tu.id, content := r.content }] }]), st)

/-- concatAll concatenates a chunk list; it spells out the "whose
concatenation exactly equals the original text" reading of the streaming
contract. -/
def concatAll : List String → String
  | [] => ""
  | s :: rest => s ++ concatAll rest

/-! Concrete fixtures used by the witness theorems: small provider
behaviors and states on which the embedded functions are evaluated. -/

/-- mcpToolFixture is a sample tool descriptor as returned by the MCP
server. -/
def mcpToolFixture : MCPTool :=
  { name := "get_markets", description := some ("List Polymarket markets"),
    inputSchema := "schema" }

/-- stStart is a state with an established first-generation session and
an empty catalog. -/
def stStart : GlobalState :=
  { mcpClient := some 0, mcpTransport := some 0, oauthPending := some false,
    availableTools := [] }

/-- envExpireThenOk expires the first-generation session once: a tool
call on generation 0 fails with the provider session-expiry text, the
reconnect succeeds, and a call on generation 1 succeeds. -/
def envExpireThenOk : Env :=
  { connect := fun _ => .ok ()
    listTools := fun _ => .ok [mcpToolFixture]
    listPrompts := fun _ => .error { msg := "no prompts" }
    listResources := fun _ => .error { msg := "no resources" }
    callTool := fun g _ _ =>
      if g = 0 then .error { msg := "Error POSTing to endpoint: Session not found or expired" }
      else .ok { content := "market data" }
    finishAuth := fun _ => .ok ()
    model := fun _ _ => .error { msg := "unused" } }

/-- stAfterReconnect is the state reached after `reconnectMCPSession`
under `envExpireThenOk` from `stStart`: a fresh second-generation client
with the refreshed catalog. -/
def stAfterReconnect : GlobalState :=
  { mcpClient := some 1, mcpTransport := some 1, oauthPending := some false,
    availableTools := [convertTool mcpToolFixture] }

/-- tuMarkets is a sample tool-use request block. -/
def tuMarkets : ToolUseBlock :=
  { id := "toolu_01", name := "get_markets", input := "query" }

/-- envMixedFailure fails a call to `other_tool` with a non-expiry error
and every other call with the session-expiry text, on every generation;
reconnects succeed with an empty catalog. -/
def envMixedFailure : Env :=
  { connect := fun _ => .ok ()
    listTools := fun _ => .ok []
    listPrompts := fun _ => .error { msg := "no prompts" }
    listResources := fun _ => .error { msg := "no resources" }
    callTool := fun _ name _ =>
      if name = ("other_tool") then .error { msg := "invalid arguments" }
      else .error { msg := "Session not found or expired" }
    finishAuth := fun _ => .ok ()
    model := fun _ _ => .error { msg := "unused" } }

/-- stReconnectEmpty is the post-reconnect state under an environment
whose refreshed catalog is empty. -/
def stReconnectEmpty : GlobalState :=
  { mcpClient := some 1, mcpTransport := some 1, oauthPending := some false,
    availableTools := [] }

/-- tuOther is a tool-use block for the tool that fails with a
non-expiry error under `envMixedFailure`. -/
def tuOther : ToolUseBlock :=
  { id := "toolu_02", name := "other_tool", input := "query" }

/-- envExpireThenBoom expires the generation-0 session and then fails
the generation-1 retry with a non-expiry error. -/
def envExpireThenBoom : Env :=
  { connect := fun _ => .ok ()
    listTools := fun _ => .ok []
    listPrompts := fun _ => .error { msg := "no prompts" }
    listResources := fun _ => .error { msg := "no resources" }
    callTool := fun g _ _ =>
      if g = 0 then .error { msg := "Session not found or expired" }
      else .error { msg := "boom" }
    finishAuth := fun _ => .ok ()
    model := fun _ _ => .error { msg := "unused" } }

/-- respTwoTools is a model response requesting two tool calls in one
turn. -/
def respTwoTools : ModelResponse :=
  { content :=
      [ .text "Let me check the markets.",
        .toolUse "toolu_01" "get_markets" "query one",
        .toolUse "toolu_02" "get_events" "query two" ],
    stop_reason := "tool_use" }

/-- stSecondGen is an established second-generation session (tool calls
succeed under `envExpireThenOk`). -/
def stSecondGen : GlobalState :=
  { mcpClient := some 1, mcpTransport := some 1, oauthPending := some false,
    availableTools := [] }

/-- historyFixture is a two-message prior conversation. -/
def historyFixture : List Message :=
  [ { role := .user, content := "hi" },
    { role := .assistant, content := "hello" } ]

/-- entryMarkets is the tool-result entry produced for the first request
of `respTwoTools` under `envExpireThenOk` on generation 1. -/
def entryMarkets : ToolResultEntry :=
  { tool_use_id := "toolu_01", content := "market data" }

/-- entryEvents is the tool-result entry produced for the second request
of `respTwoTools` under `envExpireThenOk` on generation 1. -/
def entryEvents : ToolResultEntry :=
  { tool_use_id := "toolu_02", content := "market data" }

/-- envAuthFlow demands OAuth authorization on the initial connect of
generation 0 and accepts the code `valid-code`. -/
def envAuthFlow : Env :=
  { connect := fun g => if g = 0 then .error .unauthorized else .ok ()
    listTools := fun _ => .ok [mcpToolFixture]
    listPrompts := fun _ => .error { msg := "no prompts" }
    listResources := fun _ => .error { msg := "no resources" }
    callTool := fun _ _ _ => .error { msg := "unused" }
    finishAuth := fun c =>
      if c = ("valid-code") then .ok () else .error { msg := "invalid code" }
    model := fun _ _ => .error { msg := "unused" } }

/-- awaitingState is the state after the initial connect raised the
authorization error: the client object exists, the pending flag is set,
and the catalog is empty. -/
def awaitingState : GlobalState :=
  { mcpClient := some 0, mcpTransport := some 0, oauthPending := some true,
    availableTools := [] }

/-- envFinalAnswer answers every model call with a final text response
and no tool calls. -/
def envFinalAnswer : Env :=
  { connect := fun _ => .ok ()
    listTools := fun _ => .ok []
    listPrompts := fun _ => .error { msg := "no prompts" }
    listResources := fun _ => .error { msg := "no resources" }
    callTool := fun _ _ _ => .error { msg := "unused" }
    finishAuth := fun _ => .ok ()
    model := fun _ _ =>
      .ok { content := [ .text "The market says yes" ], stop_reason := "end_turn" } }

/-- envModelDown fails every model call with a network error. -/
def envModelDown : Env :=
  { connect := fun _ => .ok ()
    listTools := fun _ => .ok []
    listPrompts := fun _ => .error { msg := "no prompts" }
    listResources := fun _ => .error { msg := "no resources" }
    callTool := fun _ _ _ => .error { msg := "unused" }
    finishAuth := fun _ => .ok ()
    model := fun _ _ => .error { msg := "Connection error" } }

/-- envPromptsOk is `envFinalAnswer` with the prompt and resource
listings succeeding instead of failing. -/
def envPromptsOk : Env :=
  { envFinalAnswer with
    listPrompts := fun _ => .ok 3
    listResources := fun _ => .ok 2 }

/-! Helper lemmas. -/

/-- Appending two packed character lists appends the characters. -/
theorem string_mk_append (a b : List Char) :
    String.mk a ++ String.mk b = String.mk (a ++ b) := rfl

/-- Packing the characters of a string gives the string back. -/
theorem string_mk_data (s : String) : String.mk s.data = s := rfl

/-- Concatenating the space-suffixed chunks of a word list rebuilds the
space-interleaved character list. -/
theorem concatAll_chunkWords_map_mk (ls : List (List Char)) :
    concatAll (chunkWords (ls.map String.mk)) = String.mk (List.intercalate [' '] ls) := by
  induction ls with
  | nil => rfl
  | cons w ws ih =>
    cases ws with
    | nil =>
      show String.mk w ++ "" = String.mk (List.intercalate [' '] [w])
      simp [List.intercalate]
    | cons v vs =>
      show concatAll ((String.mk w ++ (" ")) :: chunkWords ((v :: vs).map String.mk))
          = String.mk (List.intercalate [' '] (w :: v :: vs))
      have h₂ : concatAll ((String.mk w ++ (" ")) :: chunkWords ((v :: vs).map String.mk))
          = (String.mk w ++ (" ")) ++ concatAll (chunkWords ((v :: vs).map String.mk)) := rfl
      rw [h₂, ih]
      show String.mk (w ++ [' ']) ++ String.mk (List.intercalate [' '] (v :: vs)) = _
      rw [string_mk_append]
      simp [List.intercalate]

/-- Splitting a string on single spaces, re-suffixing every non-final
chunk with a space, and concatenating rebuilds the original string. -/
theorem concatAll_chunkWords_jsSplit (s : String) :
    concatAll (chunkWords (jsSplit s)) = s := by
  have h := concatAll_chunkWords_map_mk (s.data.splitOn ' ')
  rw [jsSplit, h, List.intercalate_splitOn, string_mk_data]

/-- A catalog refresh never swaps the client handle: `initializeTools`
only replaces `availableTools`. -/
theorem initializeTools_mcpClient (env : Env) (st : GlobalState) :
    (initializeTools env st).2.1.mcpClient = st.mcpClient := by
  unfold initializeTools
  split
  · rfl
  · split
    · rfl
    · rfl

/-- A successful reconnect installs the freshly created client: the
state afterwards holds the next generation. -/
theorem reconnectMCPSession_ok_client (env : Env) (st st₁ : GlobalState)
    (h : reconnectMCPSession env st = (.ok (), st₁)) :
    st₁.mcpClient = some (nextGen st) := by
  unfold reconnectMCPSession at h
  split at h
  · simp at h
  · split at h
    · simp at h
    · simp at h
    · split at h
      · rename_i a st₂ snd heq
        have hclient := initializeTools_mcpClient env
          { st with mcpTransport := some (nextGen st), mcpClient := some (nextGen st) }
        rw [heq] at hclient
        simp only [Prod.mk.injEq] at h
        rw [← h.2]
        exact hclient
      · simp at h

/-- A successful pass of the retry loop correlates its result entry to
the originating request by the tool-use id. -/
theorem callToolGo_ok_id (env : Env) (tu : ToolUseBlock) :
    ∀ (fuel : Nat) (st : GlobalState) (entry : ToolResultEntry),
    (callToolGo env tu fuel st).outcome = .ok entry → entry.tool_use_id = tu.id := by
  intro fuel
  induction fuel with
  | zero =>
    intro st entry h
    simp [callToolGo] at h
  | succ fuel ih =>
    intro st entry h
    rw [callToolGo] at h
    cases hc : st.mcpClient with
    | none => rw [hc] at h; simp at h
    | some g =>
      rw [hc] at h
      simp only at h
      cases hcall : env.callTool g tu.name tu.input with
      | ok r =>
        rw [hcall] at h
        simp only [Except.ok.injEq] at h
        rw [← h]
      | error e =>
        rw [hcall] at h
        simp only at h
        by_cases hcond : (sessionExpiredMsg e.msg && decide (0 < fuel)) = true
        · rw [if_pos hcond] at h
          cases hrec : reconnectMCPSession env st with
          | mk outcome st₁ =>
            rw [hrec] at h
            cases outcome with
            | error e₁ => simp at h
            | ok u =>
              simp only at h
              exact ih st₁ entry h
        · rw [if_neg hcond] at h
          simp at h

/-- A successful aggregation resolves exactly one entry per requested
call and correlates entries to requests positionally by the tool-use
id. -/
theorem resolveAllTools_ok_spec (env : Env) :
    ∀ (bs : List ToolUseBlock) (st st₁ : GlobalState)
      (entries : List ToolResultEntry),
    resolveAllTools env bs st = (.ok entries, st₁) →
    entries.length = bs.length ∧
      entries.map ToolResultEntry.tool_use_id = bs.map ToolUseBlock.id := by
  intro bs
  induction bs with
  | nil =>
    intro st st₁ entries h
    simp only [resolveAllTools, Prod.mk.injEq, Except.ok.injEq] at h
    rw [← h.1]
    exact ⟨rfl, rfl⟩
  | cons b bs ih =>
    intro st st₁ entries h
    rw [resolveAllTools] at h
    cases ho : (callToolGo env b maxRetries st).outcome with
    | error e => rw [ho] at h; simp at h
    | ok entry =>
      rw [ho] at h
      simp only at h
      cases hrest : resolveAllTools env bs (callToolGo env b maxRetries st).st with
      | mk outcome st₂ =>
        rw [hrest] at h
        cases outcome with
        | error e => simp at h
        | ok entries₁ =>
          simp only [Prod.mk.injEq, Except.ok.injEq] at h
          obtain ⟨hent, _⟩ := h
          obtain ⟨hlen, hmap⟩ := ih _ _ _ hrest
          rw [← hent]
          refine ⟨by simp [hlen], ?_⟩
          have hid := callToolGo_ok_id env b maxRetries st entry ho
          simp [hid, hmap]

/-! Claim theorems. -/

/-- C1: a tool invocation whose first attempt fails with the provider
session-expiry text and whose second attempt succeeds performs exactly
one reconnect between the attempts, retries the same tool name and
arguments against the newly created client (generation `g + 1`, not the
stale generation `g`), and returns the successful result, correlated by
the originating tool-use id, with no error. -/
theorem claim1_expiry_reconnect_retry
    (env : Env) (tu : ToolUseBlock) (st st₁ : GlobalState) (g : Nat)
    (e : Err) (r : CallToolResult)
    (hclient : st.mcpClient = some g)
    (hfail : env.callTool g tu.name tu.input = .error e)
    (hexp : sessionExpiredMsg e.msg = true)
    (hrec : reconnectMCPSession env st = (.ok (), st₁))
    (hretry : env.callTool (g + 1) tu.name tu.input = .ok r) :
    callToolGo env tu maxRetries st =
      { outcome := .ok { tool_use_id := tu.id, content := r.content },
        st := st₁, reconnects := 1 } ∧
    st₁.mcpClient = some (g + 1) := by
  have hg : nextGen st = g + 1 := by unfold nextGen; rw [hclient]
  have hc₁ : st₁.mcpClient = some (g + 1) := by
    rw [← hg]
    exact reconnectMCPSession_ok_client env st st₁ hrec
  refine ⟨?_, hc₁⟩
  show callToolGo env tu 2 st = _
  simp only [callToolGo, hclient, hfail, hexp, hrec, hc₁, hretry,
    decide_True, Bool.true_and, Bool.and_true, if_true, Nat.zero_lt_one,
    Nat.zero_add]

/-- Witness for C1 at a concrete environment: the generation-0 call
fails with the expiry text, one reconnect installs generation 1, and the
retried call succeeds. -/
theorem claim1_witness :
    callToolGo envExpireThenOk tuMarkets maxRetries stStart =
      { outcome := .ok { tool_use_id := "toolu_01", content := "market data" },
        st := stAfterReconnect, reconnects := 1 } ∧
    stAfterReconnect.mcpClient = some 1 :=
  claim1_expiry_reconnect_retry envExpireThenOk tuMarkets stStart stAfterReconnect 0
    { msg := "Error POSTing to endpoint: Session not found or expired" }
    { content := "market data" } rfl rfl rfl rfl rfl

/-- C2 (amended): a first-attempt failure that is not the session-expiry
signal propagates immediately, with no reconnect and no retry, leaving
the state untouched; and a second consecutive session-expiry, exceeding
the two-attempt ceiling, propagates as a reported error after exactly
the one reconnect, with no further reconnect or retry.  (The two
scenarios are exercised on the distinct requests `tua` and `tub`.) -/
theorem claim2_failure_propagation
    (env : Env) (tua tub : ToolUseBlock) (sta stb st₁ : GlobalState)
    (ga gb : Nat) (ea e₁ e₂ : Err)
    (hca : sta.mcpClient = some ga)
    (hfa : env.callTool ga tua.name tua.input = .error ea)
    (hna : sessionExpiredMsg ea.msg = false)
    (hcb : stb.mcpClient = some gb)
    (hfb : env.callTool gb tub.name tub.input = .error e₁)
    (heb : sessionExpiredMsg e₁.msg = true)
    (hrb : reconnectMCPSession env stb = (.ok (), st₁))
    (hfb₂ : env.callTool (gb + 1) tub.name tub.input = .error e₂)
    (heb₂ : sessionExpiredMsg e₂.msg = true) :
    callToolGo env tua maxRetries sta =
      { outcome := .error (.fromCall ea), st := sta, reconnects := 0 } ∧
    callToolGo env tub maxRetries stb =
      { outcome := .error (.fromCall e₂), st := st₁, reconnects := 1 } := by
  have hgb : nextGen stb = gb + 1 := by unfold nextGen; rw [hcb]
  have hc₁ : st₁.mcpClient = some (gb + 1) := by
    rw [← hgb]
    exact reconnectMCPSession_ok_client env stb st₁ hrb
  constructor
  · show callToolGo env tua 2 sta = _
    simp only [callToolGo, hca, hfa, hna, Bool.false_and, if_false,
      Bool.false_eq_true]
  · show callToolGo env tub 2 stb = _
    simp [callToolGo, hcb, hfb, heb, hrb, hc₁, hfb₂, heb₂]

/-- Witness for C2 (amended) at a concrete environment: `other_tool`
fails with a non-expiry error and propagates with no reconnect;
`get_markets` hits the expiry text twice and propagates after the single
reconnect. -/
theorem claim2_witness :
    callToolGo envMixedFailure tuOther maxRetries stStart =
      { outcome := .error (.fromCall { msg := "invalid arguments" }),
        st := stStart, reconnects := 0 } ∧
    callToolGo envMixedFailure tuMarkets maxRetries stStart =
      { outcome := .error (.fromCall { msg := "Session not found or expired" }),
        st := stReconnectEmpty, reconnects := 1 } :=
  claim2_failure_propagation envMixedFailure tuOther tuMarkets stStart stStart
    stReconnectEmpty 0 0 { msg := "invalid arguments" }
    { msg := "Session not found or expired" }
    { msg := "Session not found or expired" }
    rfl rfl rfl rfl rfl rfl rfl rfl rfl

/-- C2 (counterexample to the claim as stated): an invocation whose
first attempt hits the session-expiry text and whose retry then fails
with a non-expiry error propagates that non-expiry failure to the
caller, yet the propagation is neither immediate nor on the first
attempt and one reconnect was performed — contradicting the claim that a
non-expiry failure propagates immediately on the first attempt without
any reconnect. -/
theorem claim2_counterexample :
    (callToolGo envExpireThenBoom tuMarkets maxRetries stStart).outcome
        = .error (.fromCall { msg := "boom" }) ∧
    sessionExpiredMsg ("boom") = false ∧
    (callToolGo envExpireThenBoom tuMarkets maxRetries stStart).reconnects = 1 :=
  ⟨rfl, rfl, rfl⟩

/-- C8: starting from the loop entry (`retries = 0`, two attempts of
fuel), the defensive `throw` placed after the `while` loop is
unreachable: the retry loop never exits normally, so its result never
carries the `exhausted` tag. -/
theorem claim8_post_loop_throw_unreachable
    (env : Env) (tu : ToolUseBlock) (st : GlobalState) (s : String) :
    (callToolGo env tu maxRetries st).outcome ≠ .error (.exhausted s) := by
  show (callToolGo env tu 2 st).outcome ≠ _
  simp only [callToolGo]
  repeat' split
  all_goals simp_all

/-- Witness for C8 at a concrete environment and request. -/
theorem claim8_witness :
    (callToolGo envExpireThenOk tuMarkets maxRetries stStart).outcome
      ≠ .error (.exhausted "get_markets") :=
  claim8_post_loop_throw_unreachable envExpireThenOk tuMarkets stStart ("get_markets")

/-- C3 (amended; the concurrent-dispatch orchestrator): a model turn
requesting `n ≥ 1` tool calls appends exactly one assistant tool-call
message followed by exactly one aggregated tool-result message holding
exactly one entry per requested call, positionally correlated to its
originating call by the tool-use id, and the turn's message order is the
user message (last of the initial list), then the assistant tool-call
message, then the single tool-result message. -/
theorem claim3_tool_turn_aggregation
    (env : Env) (history : List Message) (u : String) (response : ModelResponse)
    (st st₁ : GlobalState) (entries : List ToolResultEntry)
    (_hstop : response.stop_reason = "tool_use")
    (_hnonempty : toolUseBlocks response.content ≠ [])
    (hres : resolveAllTools env (toolUseBlocks response.content) st
      = (.ok entries, st₁)) :
    toolTurnStep env (initMessages history u) response st =
      (.ok (initMessages history u
        ++ [{ role := .assistant, content := .blocks response.content },
            { role := .user, content := .results entries }]), st₁) ∧
    entries.length = (toolUseBlocks response.content).length ∧
    entries.map ToolResultEntry.tool_use_id
      = (toolUseBlocks response.content).map ToolUseBlock.id ∧
    (initMessages history u).getLast?
      = some { role := .user, content := .ofString u } := by
  obtain ⟨hlen, hmap⟩ := resolveAllTools_ok_spec env _ _ _ _ hres
  refine ⟨?_, hlen, hmap, ?_⟩
  · simp [toolTurnStep, hres]
  · simp [initMessages]

/-- Witness for C3 at a concrete environment: a turn with two requested
tool calls yields one assistant message plus one tool-result message
with two positionally correlated entries. -/
theorem claim3_witness :
    toolTurnStep envExpireThenOk (initMessages historyFixture ("What are the odds?"))
        respTwoTools stSecondGen =
      (.ok (initMessages historyFixture ("What are the odds?")
        ++ [{ role := .assistant, content := .blocks respTwoTools.content },
            { role := .user, content := .results [entryMarkets, entryEvents] }]),
        stSecondGen) ∧
    ([entryMarkets, entryEvents]).length
      = (toolUseBlocks respTwoTools.content).length ∧
    ([entryMarkets, entryEvents]).map ToolResultEntry.tool_use_id
      = (toolUseBlocks respTwoTools.content).map ToolUseBlock.id ∧
    (initMessages historyFixture ("What are the odds?")).getLast?
      = some { role := .user, content := .ofString ("What are the odds?") } :=
  claim3_tool_turn_aggregation envExpireThenOk historyFixture ("What are the odds?")
    respTwoTools stSecondGen stSecondGen [entryMarkets, entryEvents]
    rfl (by decide) rfl

/-- C3 (counterexample to the claim as stated): the legacy orchestrator
variant kept in the repository resolves only the first requested call —
on a turn requesting two tool calls its appended tool-result message
holds a single entry, not one per requested call. -/
theorem claim3_counterexample :
    (toolUseBlocks respTwoTools.content).length = 2 ∧
    toolTurnStepLegacy envExpireThenOk (initMessages [] ("check markets"))
        respTwoTools stSecondGen =
      (.ok (initMessages [] ("check markets")
        ++ [{ role := .assistant, content := .blocks respTwoTools.content },
            { role := .user, content := .results [entryMarkets] }]),
        stSecondGen) ∧
    ([entryMarkets]).length ≠ (toolUseBlocks respTwoTools.content).length :=
  ⟨rfl, rfl, by decide⟩

/-- C5: when the final model response carries no tool calls and its text
portion is `t`, the streamed output is the chunks of `t` (split on
single spaces, each non-final chunk re-suffixed with a space) followed
by exactly one end-of-stream marker, and the chunk concatenation equals
`t` exactly. -/
theorem claim5_streaming
    (env : Env) (u : String) (history : List Message) (st : GlobalState)
    (fuel : Nat) (response : ModelResponse) (t : String)
    (hmodel : env.model (initMessages history u) st.availableTools = .ok response)
    (hnotool : toolUseBlocks response.content = [])
    (htext : findFirstText response.content = some t) :
    processMessageWithClaude env u history st fuel
      = (chunkWords (jsSplit t) ++ [("[END]")], st) ∧
    concatAll (chunkWords (jsSplit t)) = t := by
  refine ⟨?_, concatAll_chunkWords_jsSplit t⟩
  have hrun : processRun env u history st fuel
      = (.ok (chunkWords (jsSplit t)), st) := by
    simp only [processRun]
    rw [hmodel]
    show chatLoop env fuel (initMessages history u) response st = _
    rw [chatLoop.eq_def]
    simp [hnotool, finalChunks, htext]
  unfold processMessageWithClaude
  rw [hrun]

/-- Witness for C5 at a concrete environment: the four-word answer is
streamed as four chunks (the first three re-suffixed with a space) plus
one end marker, and the chunks concatenate back to the answer. -/
theorem claim5_witness :
    processMessageWithClaude envFinalAnswer ("hello") [] stStart 3
      = ([ "The ", "market ", "says ", "yes", "[END]" ], stStart) ∧
    concatAll ([ "The ", "market ", "says ", "yes" ]) = ("The market says yes") :=
  claim5_streaming envFinalAnswer ("hello") [] stStart 3
    { content := [ .text ("The market says yes") ], stop_reason := "end_turn" }
    ("The market says yes") rfl rfl rfl

/-- C6: when any error is thrown inside the orchestration body, the
caller receives exactly one error chunk followed by exactly one
end-of-stream marker, and the stored per-client history still gains
exactly the one new user message — no partial assistant state. -/
theorem claim6_error_terminator
    (env : Env) (u : String) (history : List Message) (st st₁ : GlobalState)
    (fuel : Nat) (e : Err) (stored : List Message)
    (herr : processRun env u history st fuel = (.error (.thrown e), st₁)) :
    processMessageWithClaude env u history st fuel
      = ([ ("Error: ") ++ e.msg, ("[END]") ], st₁) ∧
    (wsMessageHandler env st stored u fuel).1
      = stored ++ [{ role := .user, content := u }] := by
  constructor
  · unfold processMessageWithClaude
    rw [herr]
  · rfl

/-- Witness for C6 at a concrete environment: a model-provider network
failure yields exactly the error chunk and the end marker, and the
stored history still ends with just the new user message. -/
theorem claim6_witness :
    processMessageWithClaude envModelDown ("hi") [] stStart 2
      = ([ ("Error: ") ++ ("Connection error"), ("[END]") ], stStart) ∧
    (wsMessageHandler envModelDown stStart historyFixture ("hi") 2).1
      = historyFixture ++ [{ role := .user, content := "hi" }] :=
  claim6_error_terminator envModelDown ("hi") [] stStart stStart 2
    { msg := "Connection error" } historyFixture rfl

/-- C9: processing a message is a pure function of the prior history —
the handler passes a snapshot equal to the prior stored list
(`history.slice(0, -1)`), and the stored history afterwards is exactly
the previous messages plus the one new user message, on every turn and
for every outcome; no assistant message is ever appended. -/
theorem claim9_history_frame
    (env : Env) (st : GlobalState) (stored : List Message) (data : String)
    (fuel : Nat) :
    (wsMessageHandler env st stored data fuel).1
      = stored ++ [{ role := .user, content := data }] ∧
    (stored ++ [({ role := .user, content := data } : Message)]).dropLast
      = stored ∧
    (wsMessageHandler env st stored data fuel).2
      = processMessageWithClaude env data stored st fuel := by
  refine ⟨rfl, by simp, ?_⟩
  unfold wsMessageHandler
  simp

/-- With an unauthorized initial connect, `initializeMCPClient` catches
the authorization error and returns normally, leaving the constructed
generation-0 client in place, the pending-authorization flag set, and
the catalog empty. -/
theorem initializeMCPClient_unauthorized (env : Env)
    (hconn : env.connect 0 = .error .unauthorized) :
    initializeMCPClient env initialState = (.ok (), awaitingState, []) := by
  have h0 : nextGen initialState = 0 := rfl
  simp only [initializeMCPClient]
  rw [h0, hconn]
  rfl

/-- C4: when the initial connect fails with the authorization-required
error, `initializeMCPClient` returns without throwing and the process
does not exit (`startup` succeeds), the health endpoint keeps answering,
the state is marked pending-authorization, and once the authorization
code is accepted `reconnectAfterAuth` finishes the handshake, clears the
pending marker, and populates the tool catalog. -/
theorem claim4_oauth_pause_and_resume
    (env : Env) (code : String) (ts : List MCPTool)
    (hconn : env.connect 0 = .error .unauthorized)
    (hauth : env.finishAuth code = .ok ())
    (htools : env.listTools 0 = .ok ts) :
    (initializeMCPClient env initialState).1 = .ok () ∧
    startup env = .ok awaitingState ∧
    healthHandler awaitingState
      = { status := "ok", mcpConnected := true, toolsAvailable := 0 } ∧
    awaitingState.oauthPending = some true ∧
    (reconnectAfterAuth env code awaitingState).1 = .ok () ∧
    (reconnectAfterAuth env code awaitingState).2.1.oauthPending = some false ∧
    (reconnectAfterAuth env code awaitingState).2.1.availableTools
      = ts.map convertTool := by
  have hinit := initializeMCPClient_unauthorized env hconn
  have hrec : reconnectAfterAuth env code awaitingState
      = initializeTools env
          { mcpClient := some 0, mcpTransport := some 0,
            oauthPending := some false, availableTools := [] } := by
    simp only [reconnectAfterAuth, awaitingState, hauth]
  refine ⟨by rw [hinit], ?_, rfl, rfl, ?_, ?_, ?_⟩
  · unfold startup
    rw [hinit]
  · rw [hrec]
    simp [initializeTools, htools]
  · rw [hrec]
    simp [initializeTools, htools]
  · rw [hrec]
    simp [initializeTools, htools]

/-- Witness for C4 at a concrete environment: generation 0 demands
authorization, the process stays up serving health, and the valid code
completes the handshake and fills the catalog. -/
theorem claim4_witness :
    (initializeMCPClient envAuthFlow initialState).1 = .ok () ∧
    startup envAuthFlow = .ok awaitingState ∧
    healthHandler awaitingState
      = { status := "ok", mcpConnected := true, toolsAvailable := 0 } ∧
    awaitingState.oauthPending = some true ∧
    (reconnectAfterAuth envAuthFlow ("valid-code") awaitingState).1 = .ok () ∧
    (reconnectAfterAuth envAuthFlow ("valid-code") awaitingState).2.1.oauthPending
      = some false ∧
    (reconnectAfterAuth envAuthFlow ("valid-code") awaitingState).2.1.availableTools
      = ([mcpToolFixture]).map convertTool :=
  claim4_oauth_pause_and_resume envAuthFlow ("valid-code") [mcpToolFixture]
    rfl rfl rfl

/-- C7: the best-effort prompt and resource listings are each caught
independently and never aggregated into the connect result: when the
tools listing succeeds the refresh succeeds and installs exactly the
converted tool list, and both the outcome and the resulting state of
`initializeTools` and of `initializeMCPClient` are unchanged under any
alternative prompt/resource listing behavior. -/
theorem claim7_best_effort_listings
    (env env₁ : Env) (st : GlobalState) (g : Nat) (ts : List MCPTool)
    (hconn : env₁.connect = env.connect)
    (htoolsagree : env₁.listTools = env.listTools)
    (hclient : st.mcpClient = some g)
    (htools : env.listTools g = .ok ts) :
    (initializeTools env st).1 = .ok () ∧
    (initializeTools env st).2.1
      = { st with availableTools := ts.map convertTool } ∧
    (initializeTools env₁ st).1 = (initializeTools env st).1 ∧
    (initializeTools env₁ st).2.1 = (initializeTools env st).2.1 ∧
    (initializeMCPClient env₁ st).1 = (initializeMCPClient env st).1 ∧
    (initializeMCPClient env₁ st).2.1 = (initializeMCPClient env st).2.1 := by
  refine ⟨?_, ?_, ?_, ?_, ?_, ?_⟩
  · simp [initializeTools, hclient, htools]
  · simp [initializeTools, hclient, htools]
  · simp [initializeTools, hclient, htoolsagree, htools]
  · simp [initializeTools, hclient, htoolsagree, htools]
  · cases hc : env.connect (nextGen st) with
    | error ce =>
      cases ce <;> simp [initializeMCPClient, hconn, hc]
    | ok u =>
      cases hts : env.listTools (nextGen st) with
      | error e => simp [initializeMCPClient, hconn, htoolsagree, hc, hts]
      | ok tools => simp [initializeMCPClient, hconn, htoolsagree, hc, hts]
  · cases hc : env.connect (nextGen st) with
    | error ce =>
      cases ce <;> simp [initializeMCPClient, hconn, hc]
    | ok u =>
      cases hts : env.listTools (nextGen st) with
      | error e => simp [initializeMCPClient, hconn, htoolsagree, hc, hts]
      | ok tools => simp [initializeMCPClient, hconn, htoolsagree, hc, hts]

/-- Witness for C7 at two concrete environments differing only in the
prompt/resource listing outcomes: the catalog refresh result is
identical. -/
theorem claim7_witness :
    (initializeTools envFinalAnswer stStart).1 = .ok () ∧
    (initializeTools envFinalAnswer stStart).2.1
      = { stStart with availableTools := ([] : List MCPTool).map convertTool } ∧
    (initializeTools envPromptsOk stStart).1
      = (initializeTools envFinalAnswer stStart).1 ∧
    (initializeTools envPromptsOk stStart).2.1
      = (initializeTools envFinalAnswer stStart).2.1 ∧
    (initializeMCPClient envPromptsOk stStart).1
      = (initializeMCPClient envFinalAnswer stStart).1 ∧
    (initializeMCPClient envPromptsOk stStart).2.1
      = (initializeMCPClient envFinalAnswer stStart).2.1 :=
  claim7_best_effort_listings envFinalAnswer envPromptsOk stStart 0 []
    rfl rfl rfl rfl

/-- C10: the health endpoint reports `mcpConnected` true whenever a
client object exists; in particular, after an authorization-required
initial connect the endpoint reports `mcpConnected` true together with
`toolsAvailable` zero while the state is still awaiting the OAuth
callback — so `mcpConnected` does not imply an established session. -/
theorem claim10_health_reporting
    (env : Env) (st : GlobalState)
    (hconn : env.connect 0 = .error .unauthorized)
    (hsome : st.mcpClient.isSome = true) :
    (healthHandler st).mcpConnected = true ∧
    healthHandler (initializeMCPClient env initialState).2.1
      = { status := "ok", mcpConnected := true, toolsAvailable := 0 } ∧
    (initializeMCPClient env initialState).2.1.oauthPending = some true ∧
    (initializeMCPClient env initialState).2.1.availableTools = [] := by
  have hinit := initializeMCPClient_unauthorized env hconn
  refine ⟨hsome, ?_, ?_, ?_⟩ <;> (rw [hinit]; rfl)

/-- Witness for C10 at a concrete environment: in the awaiting-OAuth
state the endpoint reports connected with zero tools. -/
theorem claim10_witness :
    (healthHandler awaitingState).mcpConnected = true ∧
    healthHandler (initializeMCPClient envAuthFlow initialState).2.1
      = { status := "ok", mcpConnected := true, toolsAvailable := 0 } ∧
    (initializeMCPClient envAuthFlow initialState).2.1.oauthPending = some true ∧
    (initializeMCPClient envAuthFlow initialState).2.1.availableTools = [] :=
  claim10_health_reporting envAuthFlow awaitingState rfl rfl

end PolymarketBackend
